import Mathlib

/-!
# Kernel::ServerSession — a shallow embedding of `core/hle/kernel/server_session.cpp`

The C++ object state becomes a record, member functions become functions on
that record.  A failed `ASSERT` and undefined behaviour (a null dereference, an
out-of-range `std::vector` access) are explicit error results, so "the call
completes" and "the call faults" are both statements about a returned value.
-/

namespace Kernel

/-! ## Data model -/

/-- A nullable reference (`SharedPtr<T>`, `std::shared_ptr<T>` or a raw `T*`):
`none` is `nullptr`. -/
abbrev SharedPtr (α : Type) := Option α

/-- A guest thread, as far as this file uses it: an identity and the address of
its thread-local command buffer (`GetTLSAddress`). -/
structure Thread where
  id : Nat
  tls_address : Nat
deriving DecidableEq, Repr

/-- A `ResultCode` is its raw 32-bit word. -/
structure ResultCode where
  raw : Nat
deriving DecidableEq, Repr

/-- The success code, `ResultCode(0)`. -/
def RESULT_SUCCESS : ResultCode := ⟨0⟩

/-- Identity of a `SessionRequestHandler` object. -/
abbrev Handler := Nat

/-- The port a session was connected through; only the counter is used here. -/
structure ClientPort where
  active_sessions : Nat
deriving DecidableEq, Repr

/-- The `Session` record shared by the two endpoints (`parent`).  `client` and
`server` are raw pointers to the endpoints, represented by the address of the
object they point to. -/
structure Session where
  client : SharedPtr Nat
  server : SharedPtr Nat
  port : SharedPtr ClientPort
deriving DecidableEq, Repr

/-- The fields of `ServerSession` that `server_session.cpp` reads or writes. -/
structure ServerSession where
  name : String
  parent : SharedPtr Session
  hle_handler : SharedPtr Handler
  pending_requesting_threads : List (SharedPtr Thread)
  currently_handling : SharedPtr Thread
  convert_to_domain : Bool
  domain_request_handlers : List (SharedPtr Handler)
deriving DecidableEq, Repr

/-- Why a call did not return normally. -/
inductive Fault where
  /-- A failed `ASSERT` / `ASSERT_MSG`: the emulator logs and crashes. -/
  | assertion (msg : String)
  /-- Undefined behaviour in the C++ (null dereference, out-of-range index). -/
  | undefined (what : String)
deriving DecidableEq, Repr

/-! ## The waitable-object interface -/

/-- `ServerSession::ShouldWait` (lines 43-49).  The `thread` argument is unused
by the source.  `parent->client` dereferences `parent`. -/
def ShouldWait (self : ServerSession) (_thread : SharedPtr Thread) : Except Fault Bool :=
  match self.parent with
  | none => .error (.undefined "parent is null")
  | some parent =>
    -- Closed sessions should never wait
    if parent.client = none then
      .ok false
    else
      -- Wait if we have no pending requests, or if we're currently handling a request.
      .ok (self.pending_requesting_threads.isEmpty || self.currently_handling != none)

/-- `ServerSession::Acquire` (lines 51-58): both assertions, then
`currently_handling = pending_requesting_threads.back(); pop_back()`. -/
def Acquire (self : ServerSession) (thread : SharedPtr Thread) : Except Fault ServerSession :=
  match ShouldWait self thread with
  | .error f => .error f
  | .ok true => .error (.assertion "object unavailable!")
  | .ok false =>
    match self.pending_requesting_threads.getLast? with
    | none => .error (.assertion "!pending_requesting_threads.empty()")
    | some back =>
      .ok { self with
              currently_handling := back
              pending_requesting_threads := self.pending_requesting_threads.dropLast }

/-! ## Request dispatch -/

/-- The `IPC::DomainMessageHeader::CommandType` field.  The `switch` in the
source names two values; every other value of the bit field falls through. -/
inductive CommandType where
  | SendMessage
  | CloseVirtualHandle
  | unknown (value : Nat)
deriving DecidableEq, Repr

/-- The domain sub-header of a request: the sub-command and the `u32` id of the
addressed sub-object. -/
structure DomainMessageHeader where
  command : CommandType
  object_id : Nat
deriving DecidableEq, Repr

/-- The `HLERequestContext` built at the top of `HandleSyncRequest`: it is
constructed from `this`, filled from the command buffer, and may carry a
domain sub-header (`GetDomainMessageHeader`, null when there is none). -/
structure HLERequestContext where
  server_session : ServerSession
  cmd_buf : List Nat
  domain_message_header : SharedPtr DomainMessageHeader
deriving DecidableEq, Repr

/-- Modelled from the spec: `SessionRequestHandler::HandleSyncRequest` is not in
this file.  The spec gives a handler as a synchronous function from the request
context to a result code, which may set the "convert to domain" flag of the
session while it runs.  `convert` records whether it did. -/
structure HandlerOutcome where
  result : ResultCode
  convert : Bool
deriving DecidableEq, Repr

/-- What `HandleSyncRequest` calls but this file does not define. -/
structure Env where
  /-- The words of the command buffer at a TLS address (`Memory::GetPointer`). -/
  GetPointer : Nat → List Nat
  /-- The domain sub-header that `PopulateFromIncomingCommandBuffer` parses out
  of a command buffer for a session (null when there is none). -/
  ParseDomainHeader : ServerSession → List Nat → SharedPtr DomainMessageHeader
  /-- The behaviour of each request handler on a context. -/
  HandleSyncRequest : Handler → HLERequestContext → HandlerOutcome
  /-- The `ResultCode::IsError` test of `result.h`. -/
  IsError : ResultCode → Bool

/-- What a dispatch does that is visible outside the session record, in order. -/
inductive Event where
  /-- A call `handler->HandleSyncRequest(context)`. -/
  | invoke (handler : Handler) (context : HLERequestContext)
  /-- A call of `WakeupAllWaitingThreads()`. -/
  | wakeup
  /-- A response `IPC::ResponseBuilder rb(context, size)` followed by `rb.Push`
  of each listed code. -/
  | response (size : Nat) (pushed : List ResultCode)
deriving DecidableEq, Repr

/-- A dispatch that returned: the result code, the session afterwards and what
was done on the way. -/
structure Dispatched where
  result : ResultCode
  session : ServerSession
  trace : List Event
deriving DecidableEq, Repr

/-- A dispatch that did not return: the fault, the session and the trace at the
moment the emulator stops. -/
structure Abort where
  fault : Fault
  session : ServerSession
  trace : List Event
deriving DecidableEq, Repr

/-- Modelled from the spec: `IsDomain` is declared in `server_session.h`, not in
this file; "is a domain" holds exactly when the domain table has been created,
that is when `domain_request_handlers` is not empty (the test the promotion
assertion on line 119 uses). -/
def IsDomain (self : ServerSession) : Bool :=
  !self.domain_request_handlers.isEmpty

/-- `TranslateHLERequest` (lines 144-147). -/
def TranslateHLERequest (_server_session : ServerSession) : ResultCode :=
  RESULT_SUCCESS

/-- The `u32` subtraction `object_id - 1` used as a vector index. -/
def domainIndex (object_id : Nat) : Nat :=
  (object_id % 4294967296 + 4294967295) % 4294967296

/-- The session after `handler->HandleSyncRequest(context)` ran with the given
outcome: the handler may have set `convert_to_domain`. -/
def afterHandler (self : ServerSession) (out : HandlerOutcome) : ServerSession :=
  { self with convert_to_domain := self.convert_to_domain || out.convert }

/-- Lines 116-124 of `HandleSyncRequest`: the deferred conversion to a domain,
then `return result`. -/
def finishRequest (self : ServerSession) (result : ResultCode) (trace : List Event) :
    Except Abort Dispatched :=
  if self.convert_to_domain then
    if self.domain_request_handlers.isEmpty then
      .ok ⟨result,
           { self with domain_request_handlers := [self.hle_handler]
                       convert_to_domain := false },
           trace⟩
    else
      .error ⟨.assertion "already a domain", self, trace⟩
  else
    .ok ⟨result, self, trace⟩

/-- Lines 97-124 of `HandleSyncRequest`: the regular session handler, or the
queue of pending requesters when there is none, then the wake-up and the
deferred conversion. -/
def regularRequest (env : Env) (self : ServerSession) (thread : Thread)
    (context : HLERequestContext) : Except Abort Dispatched :=
  match self.hle_handler with
  | some handler =>
    let translate_result := TranslateHLERequest self
    if env.IsError translate_result then
      .ok ⟨translate_result, self, []⟩
    else
      let out := env.HandleSyncRequest handler context
      finishRequest (afterHandler self out) out.result [.invoke handler context, .wakeup]
  | none =>
    finishRequest
      { self with
          pending_requesting_threads := self.pending_requesting_threads ++ [some thread] }
      RESULT_SUCCESS [.wakeup]

/-- Lines 70-93 of `HandleSyncRequest`: a request with a domain sub-header on a
session that is a domain. -/
def domainRequest (env : Env) (self : ServerSession) (context : HLERequestContext)
    (header : DomainMessageHeader) : Except Abort Dispatched :=
  let object_id := header.object_id
  match header.command with
  | .SendMessage =>
    match self.domain_request_handlers[domainIndex object_id]? with
    | none => .error ⟨.undefined "domain_request_handlers index out of range", self, []⟩
    | some none => .error ⟨.undefined "domain request handler is null", self, []⟩
    | some (some handler) =>
      let out := env.HandleSyncRequest handler context
      .ok ⟨out.result, afterHandler self out, [.invoke handler context]⟩
  | .CloseVirtualHandle =>
    if domainIndex object_id < self.domain_request_handlers.length then
      .ok ⟨RESULT_SUCCESS,
           { self with
               domain_request_handlers :=
                 self.domain_request_handlers.set (domainIndex object_id) none },
           [.response 2 [RESULT_SUCCESS]]⟩
    else
      .error ⟨.undefined "domain_request_handlers index out of range", self, []⟩
  | .unknown _ => .error ⟨.assertion "false", self, []⟩

/-- Lines 65-68 of `HandleSyncRequest`: the context constructed from `this` and
populated from the command buffer of the calling thread. -/
def requestContext (env : Env) (self : ServerSession) (thread : Thread) : HLERequestContext :=
  let cmd_buf := env.GetPointer thread.tls_address
  ⟨self, cmd_buf, env.ParseDomainHeader self cmd_buf⟩

/-- `ServerSession::HandleSyncRequest` (lines 60-125). -/
def HandleSyncRequest (env : Env) (self : ServerSession) (thread : SharedPtr Thread) :
    Except Abort Dispatched :=
  match thread with
  | none => .error ⟨.undefined "thread is null", self, []⟩
  | some t =>
    let context := requestContext env self t
    -- If the session has been converted to a domain, handle the domain request
    if IsDomain self then
      match context.domain_message_header with
      | some header => domainRequest env self context header
      -- If there is no domain header, the regular session handler is used
      | none => regularRequest env self t context
    else
      regularRequest env self t context


/-! ## Sequences of claims -/

/-- Calling `Acquire` `n` times in a row on the same endpoint, stopping at the
first fault. -/
def acquireTimes : Nat → ServerSession → SharedPtr Thread → Except Fault ServerSession
  | 0, self, _ => .ok self
  | n + 1, self, thread =>
    match Acquire self thread with
    | .error f => .error f
    | .ok next => acquireTimes n next thread

/-- Calling `Acquire` `n` times, each call made with `currently_handling` empty:
the request in flight is completed (the slot reset to null, which is done
outside this file) before the next claim. -/
def acquireServiced : Nat → ServerSession → SharedPtr Thread → Except Fault ServerSession
  | 0, self, _ => .ok self
  | n + 1, self, thread =>
    match Acquire { self with currently_handling := none } thread with
    | .error f => .error f
    | .ok next => acquireServiced n next thread

/-! ## Concrete endpoints used as examples -/

/-- A guest thread. -/
def threadA : Thread := ⟨1, 4096⟩

/-- A second guest thread. -/
def threadB : Thread := ⟨2, 8192⟩

/-- A link whose client endpoint is gone. -/
def closedLink : Session := ⟨none, some 100, none⟩

/-- A link with both endpoints alive. -/
def openLink : Session := ⟨some 200, some 100, none⟩

/-- An endpoint with two pending requesters, nothing in flight, client alive. -/
def twoPending : ServerSession :=
  { name := "test_Server", parent := some openLink, hle_handler := none,
    pending_requesting_threads := [some threadA, some threadB],
    currently_handling := none, convert_to_domain := false,
    domain_request_handlers := [] }

/-- The same endpoint after its client went away. -/
def twoPendingClosed : ServerSession :=
  { twoPending with parent := some closedLink }

/-- An endpoint whose client went away while a request was in flight. -/
def busyClosed : ServerSession :=
  { twoPending with parent := some closedLink, currently_handling := some threadA }

/-- An endpoint whose client went away with nothing pending. -/
def idleClosed : ServerSession :=
  { twoPending with parent := some closedLink, pending_requesting_threads := [] }

/-! ## A concrete environment and endpoints with a handler -/

/-- An environment for the examples.  The command buffer at an address is the
one word equal to that address.  On a domain session the word 1 carries the
sub-header for `SendMessage` to object 1 and the word 2 the one for
`CloseVirtualHandle` of object 1; no other buffer has a sub-header.  A handler
answers with its own identity as result code and sets the convert-to-domain
flag on the words 0 and 1 only.  A result code is an error when bit 31 is set. -/
def demoEnv : Env :=
  { GetPointer := fun address => [address]
    ParseDomainHeader := fun session cmd_buf =>
      if IsDomain session then
        match cmd_buf with
        | [1] => some ⟨.SendMessage, 1⟩
        | [2] => some ⟨.CloseVirtualHandle, 1⟩
        | _ => none
      else none
    HandleSyncRequest := fun handler context =>
      ⟨⟨handler⟩, context.cmd_buf == [0] || context.cmd_buf == [1]⟩
    IsError := fun code => decide (2147483648 ≤ code.raw) }

/-- A thread whose command buffer holds the word 0. -/
def threadConvert : Thread := ⟨3, 0⟩

/-- A thread whose command buffer holds the word 1. -/
def threadSend : Thread := ⟨4, 1⟩

/-- A thread whose command buffer holds the word 5. -/
def threadPlain : Thread := ⟨5, 5⟩

/-- A freshly paired endpoint with handler 7 attached. -/
def served : ServerSession :=
  { name := "test_Server", parent := some openLink, hle_handler := some 7,
    pending_requesting_threads := [], currently_handling := none,
    convert_to_domain := false, domain_request_handlers := [] }

/-- The endpoint `served` once it is a domain with handler 7 in slot 1. -/
def promoted : ServerSession :=
  { served with domain_request_handlers := [some 7] }

/-- The domain endpoint with the convert-to-domain flag left set. -/
def stale : ServerSession :=
  { promoted with convert_to_domain := true }

/-- The domain endpoint with the flag left set and its handler detached. -/
def orphaned : ServerSession :=
  { stale with hle_handler := none }

/-! ## An environment with arbitrary domain sub-headers -/

/-- An environment for the examples on domain sessions.  The command buffer at
an address holds two words, the quotient and the remainder of the address by
256.  On a domain session a first word 1 is a `SendMessage` and a first word 2 a
`CloseVirtualHandle` to the object named by the second word, a first word 0
means no sub-header and any other first word is an unknown sub-command.  A
handler answers with its own identity and never asks for a conversion. -/
def domainEnv : Env :=
  { GetPointer := fun address => [address / 256, address % 256]
    ParseDomainHeader := fun session cmd_buf =>
      if IsDomain session then
        match cmd_buf with
        | [0, _] => none
        | [1, k] => some ⟨.SendMessage, k⟩
        | [2, k] => some ⟨.CloseVirtualHandle, k⟩
        | [c, k] => some ⟨.unknown c, k⟩
        | _ => none
      else none
    HandleSyncRequest := fun handler _ => ⟨⟨handler⟩, false⟩
    IsError := fun code => decide (2147483648 ≤ code.raw) }

/-- A thread whose request is `SendMessage` to object `k` (for `k < 256`). -/
def threadSendTo (k : Nat) : Thread := ⟨10, 256 + k⟩

/-- A thread whose request is `CloseVirtualHandle` of object `k` (for `k < 256`). -/
def threadCloseOf (k : Nat) : Thread := ⟨11, 512 + k⟩

/-- A thread whose request has no domain sub-header. -/
def threadNoHeader : Thread := ⟨12, 5⟩

/-- A domain endpoint with three slots, the second one closed. -/
def threeSlots : ServerSession :=
  { served with domain_request_handlers := [some 7, none, some 9] }

/-! ## Construction and destruction -/

/-- The fields of `ClientSession` that `server_session.cpp` writes. -/
structure ClientSession where
  name : String
  parent : SharedPtr Session
deriving DecidableEq, Repr

/-- The pair returned by `CreateSessionPair`
(`std::tuple<SharedPtr<ServerSession>, SharedPtr<ClientSession>>`). -/
structure SessionPair where
  server_session : ServerSession
  client_session : ClientSession
deriving DecidableEq, Repr

/-- The `u32` decrement `active_sessions--`. -/
def decrementU32 (n : Nat) : Nat :=
  (n % 4294967296 + 4294967295) % 4294967296

/-- `ServerSession::~ServerSession` (lines 20-32).  The endpoint itself is gone
afterwards; what is left is the shared `Session` record, returned here with the
port it refers to. -/
def destroyServerSession (self : ServerSession) : Except Fault Session :=
  match self.parent with
  | none => .error (.undefined "parent is null")
  | some parent =>
    -- Decrease the port's connection count.
    let port :=
      match parent.port with
      | some p => some { p with active_sessions := decrementU32 p.active_sessions }
      | none => none
    .ok { parent with port := port, server := none }

/-- `ServerSession::Create` (lines 34-41).  The members the function does not
assign keep the values of the default constructor: null pointers, empty
vectors and a clear flag. -/
def Create (name : String) : Except ResultCode ServerSession :=
  .ok { name := name, parent := none, hle_handler := none,
        pending_requesting_threads := [], currently_handling := none,
        convert_to_domain := false, domain_request_handlers := [] }

/-- `ServerSession::CreateSessionPair` (lines 127-142).  `server_address` and
`client_address` are the addresses of the two objects allocated by `new`, which
`get()` stores in the `Session` record.  `Unwrap` asserts that `Create`
succeeded. -/
def CreateSessionPair (name : String) (port : SharedPtr ClientPort)
    (server_address client_address : Nat) : Except Fault SessionPair :=
  match Create (name ++ "_Server") with
  | .error _ => .error (.assertion "Unwrap: result is an error")
  | .ok server_session =>
    let client_session : ClientSession := ⟨name ++ "_Client", none⟩
    let parent : Session := ⟨some client_address, some server_address, port⟩
    .ok ⟨{ server_session with parent := some parent },
         { client_session with parent := some parent }⟩

/-- A link to a port with three active sessions. -/
def portLink : Session := ⟨some 200, some 100, some ⟨3⟩⟩

/-- An endpoint connected through a port with three active sessions. -/
def viaPort : ServerSession :=
  { served with parent := some portLink }

end Kernel

/-!
# RendererOpenGL::FlipFramebuffer — `renderer_opengl.cpp`, lines 69-88

The two buffers are maps from an index to a byte.  Every access is recorded, so
that "each index is in range" and "each byte is written once" are statements
about what the loops did.  `VideoCore::kScreenTopWidth` and
`VideoCore::kScreenTopHeight` are declared outside this file and are the
parameters `W` and `H`.
-/

namespace RendererOpenGL

/-- The `int` that an expression of exact value `z` evaluates to: the value
reduced to 32 bits, two's complement.  Reducing once at the end gives the same
as reducing after every operation. -/
def int32 (z : Int) : Int :=
  (z + 2147483648) % 4294967296 - 2147483648

/-- The expression `in_coord` of the loop body (lines 78-79). -/
def in_coord (H : Nat) (x y : Int) : Int :=
  int32 ((H * 3 * x) + (H * 3) - (3 * y + 3))

/-- The expression `out_coord` of the loop body (line 80). -/
def out_coord (W : Nat) (x y : Int) : Int :=
  int32 ((W * y * 3) + (x * 3))

/-- The output buffer and the accesses made so far, in order: the indices read
from `in` and the indices written to `out`. -/
structure FlipState where
  out : Int → Nat
  reads : List Int
  writes : List Int

/-- One assignment `out[o] = in[i]`. -/
def copyByte (input : Int → Nat) (o i : Int) (s : FlipState) : FlipState :=
  ⟨fun j => if j = o then input i else s.out j, s.reads ++ [i], s.writes ++ [o]⟩

/-- The body of the inner loop (lines 78-84) for one `x` and `y`. -/
def flipPixel (W H : Nat) (input : Int → Nat) (y x : Nat) (s : FlipState) : FlipState :=
  let ic := in_coord H x y
  let oc := out_coord W x y
  copyByte input (int32 (oc + 2)) (int32 (ic + 2))
    (copyByte input (int32 (oc + 1)) (int32 (ic + 1))
      (copyByte input (int32 (oc + 0)) (int32 (ic + 0)) s))

/-- The first `n` iterations `x = 0, ..., n - 1` of the inner loop for row `y`;
the whole loop is `rowLoop W H input y W`. -/
def rowLoop (W H : Nat) (input : Int → Nat) (y : Nat) : Nat → FlipState → FlipState
  | 0, s => s
  | n + 1, s => flipPixel W H input y n (rowLoop W H input y n s)

/-- The first `m` iterations `y = 0, ..., m - 1` of the outer loop; the whole
loop is `frameLoop W H input H`. -/
def frameLoop (W H : Nat) (input : Int → Nat) : Nat → FlipState → FlipState
  | 0, s => s
  | m + 1, s => rowLoop W H input m W (frameLoop W H input m s)

/-- `RendererOpenGL::FlipFramebuffer` (lines 75-88).  `memory addr` is the buffer
`Memory::GetPointer(addr)` points to and `out` the output buffer on entry, which
does not overlap it. -/
def FlipFramebuffer (W H : Nat) (memory : Nat → Int → Nat) (addr : Nat) (out : Int → Nat) :
    FlipState :=
  let input := memory addr
  frameLoop W H input H ⟨out, [], []⟩

/-- The state of the loops once the first `k` pixels, in row-major order of the
output, are done: the writes so far are the indices `0, ..., 3 * k - 1` in
order, every read so far is inside the input image, and the bytes of the
pixels done hold the bytes of their source pixels. -/
def FlipInvariant (W H : Nat) (input : Int → Nat) (k : Nat) (s : FlipState) : Prop :=
  s.writes = (List.range (3 * k)).map Int.ofNat ∧
    (∀ i ∈ s.reads, 0 ≤ i ∧ i < ((3 * W * H : Nat) : Int)) ∧
    (∀ x y c : Nat, x < W → y < H → c < 3 → W * y + x < k →
      s.out ((3 * (W * y + x) + c : Nat) : Int) =
        input ((3 * (H * x + (H - 1 - y)) + c : Nat) : Int))

/-- A memory whose byte at index `i` of any buffer is `i` itself. -/
def rampMemory : Nat → Int → Nat :=
  fun _ i => i.toNat

/-- An output buffer filled with zeros. -/
def blank : Int → Nat :=
  fun _ => 0

end RendererOpenGL

namespace Kernel

/-! ## Lemmas on `ShouldWait` and `Acquire` -/

theorem ShouldWait_of_client (self : ServerSession) (thread : SharedPtr Thread)
    (link : Session) (c : Nat) (hparent : self.parent = some link)
    (hclient : link.client = some c) :
    ShouldWait self thread =
      .ok (self.pending_requesting_threads.isEmpty || self.currently_handling != none) := by
  simp [ShouldWait, hparent, hclient]

theorem Acquire_of_ready (self : ServerSession) (thread : SharedPtr Thread)
    (rest : List (SharedPtr Thread)) (back : SharedPtr Thread)
    (hwait : ShouldWait self thread = .ok false)
    (hpending : self.pending_requesting_threads = rest ++ [back]) :
    Acquire self thread =
      .ok { self with currently_handling := back, pending_requesting_threads := rest } := by
  simp [Acquire, hwait, hpending]

/-! ## The waitable-object interface: theorems -/

/-- C1: when the session link has no client endpoint, `ShouldWait` returns false,
whatever is pending and whatever is in the current slot. -/
theorem ShouldWait_client_absent (self : ServerSession) (thread : SharedPtr Thread)
    (link : Session) (hparent : self.parent = some link) (hclient : link.client = none) :
    ShouldWait self thread = .ok false := by
  simp [ShouldWait, hparent, hclient]

/-- An endpoint without client, with two pending requesters and a request in
flight, does not wait. -/
theorem ShouldWait_client_absent_witness :
    busyClosed.parent = some closedLink ∧ closedLink.client = none ∧
      busyClosed.pending_requesting_threads ≠ [] ∧ busyClosed.currently_handling ≠ none ∧
      ShouldWait busyClosed (some threadB) = .ok false :=
  ⟨rfl, rfl, by decide, by decide,
    ShouldWait_client_absent busyClosed (some threadB) closedLink rfl rfl⟩

/-- C2: with the client endpoint present, `ShouldWait` returns false exactly when
something is pending and the current slot is empty, and true in every other
state. -/
theorem ShouldWait_client_present (self : ServerSession) (thread : SharedPtr Thread)
    (link : Session) (c : Nat) (hparent : self.parent = some link)
    (hclient : link.client = some c) :
    (ShouldWait self thread = .ok false ↔
        (self.pending_requesting_threads ≠ [] ∧ self.currently_handling = none)) ∧
      (ShouldWait self thread = .ok true ↔
        ¬ (self.pending_requesting_threads ≠ [] ∧ self.currently_handling = none)) := by
  rw [ShouldWait_of_client self thread link c hparent hclient]
  cases hp : self.pending_requesting_threads <;> cases hc : self.currently_handling <;> simp

/-- The two equivalences at an endpoint with two pending requesters and nothing
in flight. -/
theorem ShouldWait_client_present_witness :
    (ShouldWait twoPending none = .ok false ↔
        (twoPending.pending_requesting_threads ≠ [] ∧ twoPending.currently_handling = none)) ∧
      (ShouldWait twoPending none = .ok true ↔
        ¬ (twoPending.pending_requesting_threads ≠ [] ∧
            twoPending.currently_handling = none)) :=
  ShouldWait_client_present twoPending none openLink 200 rfl rfl

/-- C3: when `ShouldWait` is false and something is pending, `Acquire` returns;
the pending list was `rest ++ [back]`, and afterwards `back`, the last entry,
is the current one, the pending list is `rest` in its original order, and
no other field has changed. -/
theorem Acquire_pops_last (self : ServerSession) (thread : SharedPtr Thread)
    (hwait : ShouldWait self thread = .ok false)
    (hpending : self.pending_requesting_threads ≠ []) :
    ∃ rest back,
      self.pending_requesting_threads = rest ++ [back] ∧
      Acquire self thread =
        .ok { self with currently_handling := back, pending_requesting_threads := rest } := by
  obtain ⟨rest, back, h⟩ : ∃ rest back, self.pending_requesting_threads = rest ++ [back] :=
    ⟨_, _, (List.dropLast_append_getLast hpending).symm⟩
  exact ⟨rest, back, h, Acquire_of_ready self thread rest back hwait h⟩

/-- The claim of the last of two pending requesters. -/
theorem Acquire_pops_last_witness :
    ∃ rest back,
      twoPending.pending_requesting_threads = rest ++ [back] ∧
      Acquire twoPending none =
        .ok { twoPending with currently_handling := back, pending_requesting_threads := rest } :=
  Acquire_pops_last twoPending none rfl (by decide)

/-- C4: on an endpoint with a session link, `Acquire` faults exactly when
`ShouldWait` is true or nothing is pending; the fault is a failed assertion, and
in every other state `Acquire` returns a session. -/
theorem Acquire_fault_iff (self : ServerSession) (thread : SharedPtr Thread)
    (link : Session) (hparent : self.parent = some link) :
    ((∃ f, Acquire self thread = .error f) ↔
        (ShouldWait self thread = .ok true ∨ self.pending_requesting_threads = [])) ∧
      (∀ f, Acquire self thread = .error f → ∃ msg, f = .assertion msg) ∧
      (¬ (ShouldWait self thread = .ok true ∨ self.pending_requesting_threads = []) →
        ∃ next, Acquire self thread = .ok next) := by
  have hw : ∃ b, ShouldWait self thread = .ok b := by
    simp only [ShouldWait, hparent]
    split <;> exact ⟨_, rfl⟩
  obtain ⟨b, hb⟩ := hw
  cases b with
  | true =>
    have ha : Acquire self thread = .error (.assertion "object unavailable!") := by
      simp [Acquire, hb]
    simp [ha, hb]
  | false =>
    cases hp : self.pending_requesting_threads.getLast? with
    | none =>
      have hnil : self.pending_requesting_threads = [] := List.getLast?_eq_none_iff.mp hp
      have ha : Acquire self thread =
          .error (.assertion "!pending_requesting_threads.empty()") := by
        simp [Acquire, hb, hp]
      simp [ha, hb, hnil]
    | some back =>
      have hne : self.pending_requesting_threads ≠ [] := by
        intro h
        simp [h] at hp
      have ha : ∃ next, Acquire self thread = .ok next := by
        simp [Acquire, hb, hp]
      obtain ⟨next, hnext⟩ := ha
      simp [hnext, hb, hne]

/-- An endpoint whose client is gone and that has nothing pending: `ShouldWait`
is false there and `Acquire` faults. -/
theorem Acquire_fault_iff_witness :
    ShouldWait idleClosed none = .ok false ∧
      (((∃ f, Acquire idleClosed none = .error f) ↔
          (ShouldWait idleClosed none = .ok true ∨
            idleClosed.pending_requesting_threads = [])) ∧
        (∀ f, Acquire idleClosed none = .error f → ∃ msg, f = .assertion msg) ∧
        (¬ (ShouldWait idleClosed none = .ok true ∨
              idleClosed.pending_requesting_threads = []) →
          ∃ next, Acquire idleClosed none = .ok next)) :=
  ⟨rfl, Acquire_fault_iff idleClosed none closedLink rfl⟩

/-! ## Draining the pending requesters -/

theorem acquireServiced_take (k : Nat) :
    ∀ (self : ServerSession) (thread : SharedPtr Thread) (link : Session) (c : Nat),
      self.parent = some link → link.client = some c →
      k ≤ self.pending_requesting_threads.length →
      ∃ last, acquireServiced k self thread = .ok last ∧
        last.parent = self.parent ∧
        last.pending_requesting_threads =
          self.pending_requesting_threads.take (self.pending_requesting_threads.length - k) := by
  induction k with
  | zero =>
    intro self thread link c _ _ _
    exact ⟨self, rfl, rfl, by simp⟩
  | succ k ih =>
    intro self thread link c hparent hclient hk
    have hne : self.pending_requesting_threads ≠ [] := by
      intro h
      simp [h] at hk
    have hsplit := (List.dropLast_append_getLast hne).symm
    have hwait : ShouldWait { self with currently_handling := none } thread = .ok false := by
      rw [ShouldWait_of_client { self with currently_handling := none } thread link c
        hparent hclient]
      cases hp : self.pending_requesting_threads with
      | nil => exact absurd hp hne
      | cons a l => simp [hp]
    have hacq := Acquire_of_ready { self with currently_handling := none } thread
      self.pending_requesting_threads.dropLast
      (self.pending_requesting_threads.getLast hne) hwait hsplit
    have hlen : k ≤ self.pending_requesting_threads.dropLast.length := by
      simp only [List.length_dropLast]
      omega
    obtain ⟨last, hlast, hpar, hpend⟩ := ih
      { self with
          currently_handling := self.pending_requesting_threads.getLast hne
          pending_requesting_threads := self.pending_requesting_threads.dropLast }
      thread link c hparent hclient hlen
    refine ⟨last, ?_, hpar, ?_⟩
    · simp only [acquireServiced, hacq]
      exact hlast
    · rw [hpend]
      simp only [List.length_dropLast]
      rw [List.dropLast_eq_take, List.take_take]
      congr 1
      omega

/-- C5, amended: with the client endpoint present, `N ≥ 1` pending requesters and
an empty current slot, `ShouldWait` is false, and `N` calls of `Acquire`, each
made with the current slot empty, all succeed: after `k` of them the first
`N - k` pending entries are left, after `N` the collection is empty and
`ShouldWait` is true again. -/
theorem acquireServiced_drains (self : ServerSession) (thread : SharedPtr Thread)
    (link : Session) (c : Nat) (hparent : self.parent = some link)
    (hclient : link.client = some c) (hcurrent : self.currently_handling = none)
    (hpending : 1 ≤ self.pending_requesting_threads.length) :
    ShouldWait self thread = .ok false ∧
      (∀ k, k ≤ self.pending_requesting_threads.length →
        ∃ mid, acquireServiced k self thread = .ok mid ∧
          mid.pending_requesting_threads =
            self.pending_requesting_threads.take
              (self.pending_requesting_threads.length - k)) ∧
      ∃ last, acquireServiced self.pending_requesting_threads.length self thread = .ok last ∧
        last.pending_requesting_threads = [] ∧
        ShouldWait last thread = .ok true := by
  refine ⟨?_, ?_, ?_⟩
  · rw [ShouldWait_of_client self thread link c hparent hclient, hcurrent]
    cases hp : self.pending_requesting_threads with
    | nil => simp [hp] at hpending
    | cons a l => simp
  · intro k hk
    obtain ⟨mid, hmid, _, hpend⟩ := acquireServiced_take k self thread link c hparent hclient hk
    exact ⟨mid, hmid, hpend⟩
  · obtain ⟨last, hlast, hpar, hpend⟩ :=
      acquireServiced_take self.pending_requesting_threads.length self thread link c
        hparent hclient (Nat.le_refl _)
    have hnil : last.pending_requesting_threads = [] := by
      rw [hpend]
      simp
    refine ⟨last, hlast, hnil, ?_⟩
    rw [ShouldWait_of_client last thread link c (hpar.trans hparent) hclient, hnil]
    simp

/-- The drain of an endpoint with two pending requesters. -/
theorem acquireServiced_drains_witness :
    ShouldWait twoPending none = .ok false ∧
      (∀ k, k ≤ twoPending.pending_requesting_threads.length →
        ∃ mid, acquireServiced k twoPending none = .ok mid ∧
          mid.pending_requesting_threads =
            twoPending.pending_requesting_threads.take
              (twoPending.pending_requesting_threads.length - k)) ∧
      ∃ last, acquireServiced twoPending.pending_requesting_threads.length twoPending none
          = .ok last ∧
        last.pending_requesting_threads = [] ∧
        ShouldWait last none = .ok true :=
  acquireServiced_drains twoPending none openLink 200 rfl rfl rfl (by decide)

/-- C5 fails as stated.  On an endpoint with the client present, two pending
requesters and an empty current slot, the first `Acquire` succeeds and the
second consecutive one fails its assertion, because the first one filled the
current slot.  On the same endpoint with the client absent both calls succeed,
and `ShouldWait` is false, not true, once the collection is empty. -/
theorem acquireTimes_two_pending :
    twoPending.pending_requesting_threads.length = 2 ∧
      twoPending.currently_handling = none ∧
      ShouldWait twoPending none = .ok false ∧
      (∃ next, acquireTimes 1 twoPending none = .ok next ∧
        ShouldWait next none = .ok true) ∧
      acquireTimes 2 twoPending none = .error (.assertion "object unavailable!") ∧
      (∃ last, acquireTimes 2 twoPendingClosed none = .ok last ∧
        last.pending_requesting_threads = [] ∧
        ShouldWait last none = .ok false) :=
  ⟨rfl, rfl, rfl, ⟨_, rfl, rfl⟩, rfl, ⟨_, rfl, rfl, rfl⟩⟩

/-! ## Lemmas on `HandleSyncRequest` -/

theorem HandleSyncRequest_regular (env : Env) (self : ServerSession) (thread : Thread)
    (hpath : IsDomain self = false ∨
      (requestContext env self thread).domain_message_header = none) :
    HandleSyncRequest env self (some thread) =
      regularRequest env self thread (requestContext env self thread) := by
  unfold HandleSyncRequest
  rcases hpath with h | h
  · simp [h]
  · simp only [h]
    split <;> rfl

theorem HandleSyncRequest_domain (env : Env) (self : ServerSession) (thread : Thread)
    (header : DomainMessageHeader) (hdomain : IsDomain self = true)
    (hheader : (requestContext env self thread).domain_message_header = some header) :
    HandleSyncRequest env self (some thread) =
      domainRequest env self (requestContext env self thread) header := by
  unfold HandleSyncRequest
  simp only [hdomain, hheader, if_true]

theorem afterHandler_quiet (self : ServerSession) (out : HandlerOutcome)
    (hflag : self.convert_to_domain = false) (hquiet : out.convert = false) :
    afterHandler self out = self := by
  cases self
  cases out
  simp_all [afterHandler]

theorem domainIndex_pred (k : Nat) (hpos : 1 ≤ k) (hword : k < 4294967296) :
    domainIndex k = k - 1 := by
  unfold domainIndex
  omega

/-! ## Request dispatch: theorems -/

/-- C6, amended: on an endpoint with handler `H` attached that takes the regular
path (it is not a domain, or the request has no domain sub-header), if the
convert-to-domain flag is clear when the dispatch starts and `H` does not set
it, then the dispatch calls `H` exactly once, on the parsed context, returns
the result code of `H`, wakes the waiting threads after that call, and leaves
the whole session unchanged: the pending requesters are the same and no domain
table is created. -/
theorem HandleSyncRequest_handler (env : Env) (self : ServerSession) (thread : Thread)
    (H : Handler) (hhandler : self.hle_handler = some H)
    (hpath : IsDomain self = false ∨
      (requestContext env self thread).domain_message_header = none)
    (hsuccess : env.IsError RESULT_SUCCESS = false)
    (hflag : self.convert_to_domain = false)
    (hquiet : (env.HandleSyncRequest H (requestContext env self thread)).convert = false) :
    HandleSyncRequest env self (some thread) =
      .ok ⟨(env.HandleSyncRequest H (requestContext env self thread)).result, self,
           [.invoke H (requestContext env self thread), .wakeup]⟩ := by
  have hsame := afterHandler_quiet self
    (env.HandleSyncRequest H (requestContext env self thread)) hflag hquiet
  rw [HandleSyncRequest_regular env self thread hpath]
  simp only [regularRequest, hhandler, TranslateHLERequest, hsuccess, hsame, finishRequest,
    hflag]
  rfl

/-- A plain request with command word 5 on a fresh endpoint with handler 7. -/
theorem HandleSyncRequest_handler_witness :
    HandleSyncRequest demoEnv served (some threadPlain) =
      .ok ⟨(demoEnv.HandleSyncRequest 7 (requestContext demoEnv served threadPlain)).result,
           served, [.invoke 7 (requestContext demoEnv served threadPlain), .wakeup]⟩ :=
  HandleSyncRequest_handler demoEnv served threadPlain 7 rfl (Or.inl rfl) rfl rfl rfl

/-- C6 fails as stated.  Starting from a fresh non-domain endpoint with handler 7
and the flag clear, a first request makes the handler ask for the conversion,
so the endpoint becomes a domain; a `SendMessage` to object 1 on which the
handler sets the flag again returns at once and leaves the flag set; the third
request has no domain sub-header and the handler does not set the flag while
serving it, yet the dispatch does not return the result of the handler: it
fails the assertion of the promotion step. -/
theorem HandleSyncRequest_handler_stale_flag :
    HandleSyncRequest demoEnv served (some threadConvert) =
        .ok ⟨⟨7⟩, promoted, [.invoke 7 (requestContext demoEnv served threadConvert), .wakeup]⟩ ∧
      HandleSyncRequest demoEnv promoted (some threadSend) =
        .ok ⟨⟨7⟩, stale, [.invoke 7 (requestContext demoEnv promoted threadSend)]⟩ ∧
      stale.hle_handler = some 7 ∧
      (requestContext demoEnv stale threadPlain).domain_message_header = none ∧
      (demoEnv.HandleSyncRequest 7 (requestContext demoEnv stale threadPlain)).convert = false ∧
      HandleSyncRequest demoEnv stale (some threadPlain) =
        .error ⟨.assertion "already a domain", stale,
                [.invoke 7 (requestContext demoEnv stale threadPlain), .wakeup]⟩ :=
  ⟨rfl, rfl, rfl, rfl, rfl, rfl⟩

/-- C7, amended: on an endpoint with no handler attached that takes the regular
path, unless the convert-to-domain flag is set while the endpoint is already a
domain, the dispatch returns the success code, appends the calling thread as
the last pending requester (the earlier ones kept in order), leaves the
current slot unchanged, wakes the waiting threads and calls no handler. -/
theorem HandleSyncRequest_no_handler (env : Env) (self : ServerSession) (thread : Thread)
    (hhandler : self.hle_handler = none)
    (hpath : IsDomain self = false ∨
      (requestContext env self thread).domain_message_header = none)
    (hpromotion : ¬ (self.convert_to_domain = true ∧ IsDomain self = true)) :
    ∃ done, HandleSyncRequest env self (some thread) = .ok done ∧
      done.result = RESULT_SUCCESS ∧
      done.session.pending_requesting_threads =
        self.pending_requesting_threads ++ [some thread] ∧
      done.session.currently_handling = self.currently_handling ∧
      done.trace = [.wakeup] := by
  rw [HandleSyncRequest_regular env self thread hpath]
  simp only [regularRequest, hhandler, finishRequest]
  cases hc : self.convert_to_domain with
  | false => exact ⟨_, rfl, rfl, rfl, rfl, rfl⟩
  | true =>
    have hempty : self.domain_request_handlers.isEmpty = true := by
      cases he : self.domain_request_handlers.isEmpty with
      | true => rfl
      | false => exact absurd ⟨hc, by simp [IsDomain, he]⟩ hpromotion
    simp only [hempty, if_true]
    exact ⟨_, rfl, rfl, rfl, rfl, rfl⟩

/-- A request on an endpoint without handler that already has two pending
requesters. -/
theorem HandleSyncRequest_no_handler_witness :
    ∃ done, HandleSyncRequest demoEnv twoPending (some threadPlain) = .ok done ∧
      done.result = RESULT_SUCCESS ∧
      done.session.pending_requesting_threads =
        twoPending.pending_requesting_threads ++ [some threadPlain] ∧
      done.session.currently_handling = twoPending.currently_handling ∧
      done.trace = [.wakeup] :=
  HandleSyncRequest_no_handler demoEnv twoPending threadPlain rfl (Or.inl rfl) (by decide)

/-- C7 fails as stated.  On an endpoint with no handler attached, already a
domain and with the convert-to-domain flag set, a request without domain
sub-header takes the regular path and the dispatch does not return the success
code: it fails the assertion of the promotion step. -/
theorem HandleSyncRequest_no_handler_stale_flag :
    orphaned.hle_handler = none ∧
      (requestContext demoEnv orphaned threadPlain).domain_message_header = none ∧
      HandleSyncRequest demoEnv orphaned (some threadPlain) =
        .error ⟨.assertion "already a domain",
                { orphaned with pending_requesting_threads := [some threadPlain] },
                [.wakeup]⟩ :=
  ⟨rfl, rfl, rfl⟩

/-- C8: on a non-domain endpoint with handler `H` attached, if `H` sets the
convert-to-domain flag while it serves the request, the dispatch returns the
result code of `H` unmodified, and afterwards the domain table has exactly one
slot, bound to `H`, and the flag is clear; the context `H` ran on saw a session
without domain table. -/
theorem HandleSyncRequest_promotes (env : Env) (self : ServerSession) (thread : Thread)
    (H : Handler) (hplain : IsDomain self = false) (hhandler : self.hle_handler = some H)
    (hsuccess : env.IsError RESULT_SUCCESS = false)
    (hsets : (env.HandleSyncRequest H (requestContext env self thread)).convert = true) :
    HandleSyncRequest env self (some thread) =
        .ok ⟨(env.HandleSyncRequest H (requestContext env self thread)).result,
             { self with domain_request_handlers := [some H], convert_to_domain := false },
             [.invoke H (requestContext env self thread), .wakeup]⟩ ∧
      (requestContext env self thread).server_session.domain_request_handlers = [] := by
  have hempty : self.domain_request_handlers.isEmpty = true := by
    simpa [IsDomain] using hplain
  refine ⟨?_, ?_⟩
  · rw [HandleSyncRequest_regular env self thread (Or.inl hplain)]
    simp [regularRequest, hhandler, TranslateHLERequest, hsuccess, finishRequest, afterHandler,
      hsets, hempty]
  · exact List.isEmpty_iff.mp hempty

/-- The request on which handler 7 asks for the conversion of a fresh endpoint. -/
theorem HandleSyncRequest_promotes_witness :
    HandleSyncRequest demoEnv served (some threadConvert) =
        .ok ⟨(demoEnv.HandleSyncRequest 7 (requestContext demoEnv served threadConvert)).result,
             { served with domain_request_handlers := [some 7], convert_to_domain := false },
             [.invoke 7 (requestContext demoEnv served threadConvert), .wakeup]⟩ ∧
      (requestContext demoEnv served threadConvert).server_session.domain_request_handlers
        = [] :=
  HandleSyncRequest_promotes demoEnv served threadConvert 7 rfl rfl rfl rfl

/-- C9: a dispatch on an endpoint that is already a domain which reaches the
promotion step with the convert-to-domain flag set (the flag was set before, or
the attached handler sets it while serving this request) does not return: it
fails the assertion "already a domain", and the domain table it leaves behind
is the one it found. -/
theorem HandleSyncRequest_second_promotion (env : Env) (self : ServerSession)
    (thread : Thread) (hdomain : IsDomain self = true)
    (hheader : (requestContext env self thread).domain_message_header = none)
    (hsuccess : env.IsError RESULT_SUCCESS = false)
    (hflag : self.convert_to_domain = true ∨
      ∃ H, self.hle_handler = some H ∧
        (env.HandleSyncRequest H (requestContext env self thread)).convert = true) :
    ∃ stop, HandleSyncRequest env self (some thread) = .error stop ∧
      stop.fault = .assertion "already a domain" ∧
      stop.session.domain_request_handlers = self.domain_request_handlers := by
  have hempty : self.domain_request_handlers.isEmpty = false := by
    simpa [IsDomain] using hdomain
  rw [HandleSyncRequest_regular env self thread (Or.inr hheader)]
  cases hh : self.hle_handler with
  | none =>
    have hc : self.convert_to_domain = true := by
      rcases hflag with h | ⟨H, h, _⟩
      · exact h
      · rw [hh] at h
        exact absurd h (by simp)
    simp only [regularRequest, hh, finishRequest, hc, hempty, if_true]
    exact ⟨_, rfl, rfl, rfl⟩
  | some H =>
    have hc : (self.convert_to_domain ||
        (env.HandleSyncRequest H (requestContext env self thread)).convert) = true := by
      rcases hflag with h | ⟨H2, h, hs⟩
      · simp [h]
      · rw [hh] at h
        cases h
        simp [hs]
    simp only [regularRequest, hh, TranslateHLERequest, hsuccess, finishRequest, afterHandler,
      hc, hempty, if_true]
    exact ⟨_, rfl, rfl, rfl⟩

/-- A request on which handler 7 asks for the conversion of an endpoint that is
a domain already. -/
theorem HandleSyncRequest_second_promotion_witness :
    ∃ stop, HandleSyncRequest demoEnv promoted (some threadConvert) = .error stop ∧
      stop.fault = .assertion "already a domain" ∧
      stop.session.domain_request_handlers = promoted.domain_request_handlers :=
  HandleSyncRequest_second_promotion demoEnv promoted threadConvert rfl rfl rfl
    (Or.inr ⟨7, rfl, rfl⟩)

/-- C10: on a domain endpoint, a request whose sub-header is `SendMessage` to
object `k` (a 32-bit word), with `1 ≤ k ≤` table length and slot `k` populated, is
forwarded to
the sub-handler at table index `k - 1` and returns its result code unchanged.
The dispatch returns at once: that call is the only one made, no thread is
woken, the pending requesters and the domain table are unchanged and the
convert-to-domain flag is not cleared. -/
theorem HandleSyncRequest_send_message (env : Env) (self : ServerSession) (thread : Thread)
    (k : Nat) (sub : Handler)
    (hheader : (requestContext env self thread).domain_message_header =
      some ⟨.SendMessage, k⟩)
    (hpos : 1 ≤ k) (hrange : k ≤ self.domain_request_handlers.length)
    (hword : k < 4294967296)
    (hslot : self.domain_request_handlers[k - 1]? = some (some sub)) :
    ∃ done, HandleSyncRequest env self (some thread) = .ok done ∧
      done.result = (env.HandleSyncRequest sub (requestContext env self thread)).result ∧
      done.trace = [.invoke sub (requestContext env self thread)] ∧
      done.session.pending_requesting_threads = self.pending_requesting_threads ∧
      done.session.currently_handling = self.currently_handling ∧
      done.session.domain_request_handlers = self.domain_request_handlers ∧
      done.session.hle_handler = self.hle_handler ∧
      done.session.convert_to_domain =
        (self.convert_to_domain ||
          (env.HandleSyncRequest sub (requestContext env self thread)).convert) := by
  have hdomain : IsDomain self = true := by
    cases ht : self.domain_request_handlers with
    | nil => simp [ht] at hrange; omega
    | cons a l => simp [IsDomain, ht]
  rw [HandleSyncRequest_domain env self thread _ hdomain hheader]
  simp only [domainRequest, domainIndex_pred k hpos hword, hslot]
  exact ⟨_, rfl, rfl, rfl, rfl, rfl, rfl, rfl, rfl⟩

/-- A `SendMessage` to object 1 of the promoted endpoint. -/
theorem HandleSyncRequest_send_message_witness :
    ∃ done, HandleSyncRequest demoEnv promoted (some threadSend) = .ok done ∧
      done.result =
        (demoEnv.HandleSyncRequest 7 (requestContext demoEnv promoted threadSend)).result ∧
      done.trace = [.invoke 7 (requestContext demoEnv promoted threadSend)] ∧
      done.session.pending_requesting_threads = promoted.pending_requesting_threads ∧
      done.session.currently_handling = promoted.currently_handling ∧
      done.session.domain_request_handlers = promoted.domain_request_handlers ∧
      done.session.hle_handler = promoted.hle_handler ∧
      done.session.convert_to_domain =
        (promoted.convert_to_domain ||
          (demoEnv.HandleSyncRequest 7 (requestContext demoEnv promoted threadSend)).convert) :=
  HandleSyncRequest_send_message demoEnv promoted threadSend 1 7 rfl (by decide) (by decide)
    (by decide) rfl

/-! ## Closing a domain object -/

/-- C11: on a domain endpoint, a request whose sub-header is `CloseVirtualHandle`
of object `k` (a 32-bit word) with `1 ≤ k ≤` table length returns the success
code after building a response of size 2 that carries the success code.
Afterwards slot `k` (table index `k - 1`) is empty, every other slot holds what
it held, the table has the same length and no other field has changed. -/
theorem HandleSyncRequest_close_handle (env : Env) (self : ServerSession) (thread : Thread)
    (k : Nat)
    (hheader : (requestContext env self thread).domain_message_header =
      some ⟨.CloseVirtualHandle, k⟩)
    (hpos : 1 ≤ k) (hrange : k ≤ self.domain_request_handlers.length)
    (hword : k < 4294967296) :
    HandleSyncRequest env self (some thread) =
        .ok ⟨RESULT_SUCCESS,
             { self with
                 domain_request_handlers := self.domain_request_handlers.set (k - 1) none },
             [.response 2 [RESULT_SUCCESS]]⟩ ∧
      (self.domain_request_handlers.set (k - 1) none)[k - 1]? = some none ∧
      (∀ j, j ≠ k - 1 →
        (self.domain_request_handlers.set (k - 1) none)[j]? =
          self.domain_request_handlers[j]?) ∧
      (self.domain_request_handlers.set (k - 1) none).length =
        self.domain_request_handlers.length := by
  have hdomain : IsDomain self = true := by
    cases ht : self.domain_request_handlers with
    | nil => simp [ht] at hrange; omega
    | cons a l => simp [IsDomain, ht]
  have hlt : k - 1 < self.domain_request_handlers.length := by omega
  refine ⟨?_, ?_, ?_, ?_⟩
  · rw [HandleSyncRequest_domain env self thread _ hdomain hheader]
    simp only [domainRequest, domainIndex_pred k hpos hword, hlt, if_true]
  · simp [List.getElem?_set, hlt]
  · intro j hj
    simp [List.getElem?_set, Ne.symm hj]
  · simp

/-- Closing object 3 of an endpoint with three slots. -/
theorem HandleSyncRequest_close_handle_witness :
    HandleSyncRequest domainEnv threeSlots (some (threadCloseOf 3)) =
        .ok ⟨RESULT_SUCCESS,
             { threeSlots with
                 domain_request_handlers :=
                   threeSlots.domain_request_handlers.set (3 - 1) none },
             [.response 2 [RESULT_SUCCESS]]⟩ ∧
      (threeSlots.domain_request_handlers.set (3 - 1) none)[3 - 1]? = some none ∧
      (∀ j, j ≠ 3 - 1 →
        (threeSlots.domain_request_handlers.set (3 - 1) none)[j]? =
          threeSlots.domain_request_handlers[j]?) ∧
      (threeSlots.domain_request_handlers.set (3 - 1) none).length =
        threeSlots.domain_request_handlers.length :=
  HandleSyncRequest_close_handle domainEnv threeSlots (threadCloseOf 3) 3 rfl (by decide)
    (by decide) (by decide)

/-- C12 does not hold of the code.  On a domain endpoint with three slots, the
second one empty: a `SendMessage` to the empty slot 2 dereferences a null
handler; a `SendMessage` or a `CloseVirtualHandle` to object 0 or to object 4
indexes the table out of range; none of them returns a result code.  A
`CloseVirtualHandle` of the empty slot 2 returns the success code.  The run of
the spec, closing object 1 of a one-slot domain and then sending to it, ends in
the null dereference too. -/
theorem HandleSyncRequest_invalid_object_id :
    HandleSyncRequest domainEnv threeSlots (some (threadSendTo 2)) =
        .error ⟨.undefined "domain request handler is null", threeSlots, []⟩ ∧
      HandleSyncRequest domainEnv threeSlots (some (threadSendTo 0)) =
        .error ⟨.undefined "domain_request_handlers index out of range", threeSlots, []⟩ ∧
      HandleSyncRequest domainEnv threeSlots (some (threadSendTo 4)) =
        .error ⟨.undefined "domain_request_handlers index out of range", threeSlots, []⟩ ∧
      HandleSyncRequest domainEnv threeSlots (some (threadCloseOf 0)) =
        .error ⟨.undefined "domain_request_handlers index out of range", threeSlots, []⟩ ∧
      HandleSyncRequest domainEnv threeSlots (some (threadCloseOf 4)) =
        .error ⟨.undefined "domain_request_handlers index out of range", threeSlots, []⟩ ∧
      HandleSyncRequest domainEnv threeSlots (some (threadCloseOf 2)) =
        .ok ⟨RESULT_SUCCESS, threeSlots, [.response 2 [RESULT_SUCCESS]]⟩ ∧
      HandleSyncRequest domainEnv promoted (some (threadCloseOf 1)) =
        .ok ⟨RESULT_SUCCESS, { promoted with domain_request_handlers := [none] },
             [.response 2 [RESULT_SUCCESS]]⟩ ∧
      HandleSyncRequest domainEnv { promoted with domain_request_handlers := [none] }
          (some (threadSendTo 1)) =
        .error ⟨.undefined "domain request handler is null",
                { promoted with domain_request_handlers := [none] }, []⟩ :=
  ⟨rfl, rfl, rfl, rfl, rfl, rfl, rfl, rfl⟩

/-! ## The domain table across a dispatch -/

theorem finishRequest_domain_table (self : ServerSession) (result : ResultCode)
    (trace : List Event) (done : Dispatched)
    (hok : finishRequest self result trace = .ok done)
    (hdomain : self.domain_request_handlers.isEmpty = false) :
    done.session.domain_request_handlers = self.domain_request_handlers := by
  unfold finishRequest at hok
  cases hc : self.convert_to_domain with
  | true => simp [hc, hdomain] at hok
  | false =>
    simp only [hc] at hok
    cases hok
    rfl

theorem regularRequest_domain_table (env : Env) (self : ServerSession) (thread : Thread)
    (context : HLERequestContext) (done : Dispatched)
    (hdomain : IsDomain self = true)
    (hok : regularRequest env self thread context = .ok done) :
    done.session.domain_request_handlers = self.domain_request_handlers := by
  have hempty : self.domain_request_handlers.isEmpty = false := by
    simpa [IsDomain] using hdomain
  unfold regularRequest at hok
  cases hh : self.hle_handler with
  | none =>
    simp only [hh] at hok
    have h := finishRequest_domain_table _ _ _ done hok hempty
    exact h
  | some handler =>
    simp only [hh] at hok
    cases he : env.IsError (TranslateHLERequest self) with
    | true =>
      simp only [he, if_true] at hok
      cases hok
      rfl
    | false =>
      simp only [he, Bool.false_eq_true, if_false] at hok
      have h := finishRequest_domain_table _ _ _ done hok hempty
      exact h

theorem set_none_slots (table : List (SharedPtr Handler)) (idx : Nat)
    (hlt : idx < table.length) :
    (table.set idx none)[idx]? = some none ∧
      ∀ j : Nat, j ≠ idx → (table.set idx none)[j]? = table[j]? := by
  refine ⟨?_, ?_⟩
  · simp [List.getElem?_set, hlt]
  · intro j hj
    simp [List.getElem?_set, Ne.symm hj]

/-- C16: a dispatch on a domain endpoint that returns leaves the endpoint a
domain with a table of the same length.  Every slot holds what it held before,
except the slot addressed by a `CloseVirtualHandle` sub-header, which is empty
afterwards; a slot that was empty is still empty. -/
theorem HandleSyncRequest_domain_stable (env : Env) (self : ServerSession)
    (thread : SharedPtr Thread) (done : Dispatched)
    (hdomain : IsDomain self = true)
    (hok : HandleSyncRequest env self thread = .ok done) :
    IsDomain done.session = true ∧
      done.session.domain_request_handlers.length = self.domain_request_handlers.length ∧
      (∀ j : Nat, done.session.domain_request_handlers[j]? = self.domain_request_handlers[j]? ∨
        ∃ t k, thread = some t ∧
          (requestContext env self t).domain_message_header =
            some ⟨.CloseVirtualHandle, k⟩ ∧
          j = domainIndex k ∧ done.session.domain_request_handlers[j]? = some none) ∧
      (∀ j : Nat, self.domain_request_handlers[j]? = some none →
        done.session.domain_request_handlers[j]? = some none) := by
  have hsame : ∀ table : List (SharedPtr Handler),
      table = self.domain_request_handlers → done.session.domain_request_handlers = table →
      IsDomain done.session = true ∧
      done.session.domain_request_handlers.length = self.domain_request_handlers.length ∧
      (∀ j : Nat, done.session.domain_request_handlers[j]? = self.domain_request_handlers[j]? ∨
        ∃ t k, thread = some t ∧
          (requestContext env self t).domain_message_header =
            some ⟨.CloseVirtualHandle, k⟩ ∧
          j = domainIndex k ∧ done.session.domain_request_handlers[j]? = some none) ∧
      (∀ j : Nat, self.domain_request_handlers[j]? = some none →
        done.session.domain_request_handlers[j]? = some none) := by
    intro table h1 h2
    have h : done.session.domain_request_handlers = self.domain_request_handlers := by
      rw [h2, h1]
    refine ⟨?_, by rw [h], fun j => Or.inl (by rw [h]), fun j hj => by rw [h]; exact hj⟩
    simpa [IsDomain, h] using hdomain
  cases thread with
  | none => simp [HandleSyncRequest] at hok
  | some t =>
    cases hh : (requestContext env self t).domain_message_header with
    | none =>
      rw [HandleSyncRequest_regular env self t (Or.inr hh)] at hok
      exact hsame _ rfl (regularRequest_domain_table env self t _ done hdomain hok)
    | some header =>
      rw [HandleSyncRequest_domain env self t header hdomain hh] at hok
      obtain ⟨command, object_id⟩ := header
      cases command with
      | unknown value => simp [domainRequest] at hok
      | SendMessage =>
        simp only [domainRequest] at hok
        split at hok
        · cases hok
        · cases hok
        · cases hok
          exact hsame _ rfl rfl
      | CloseVirtualHandle =>
        simp only [domainRequest] at hok
        split at hok
        · rename_i hlt
          cases hok
          refine ⟨?_, by simp, ?_, ?_⟩
          · have hne : self.domain_request_handlers ≠ [] := by
              intro h
              simp [h] at hlt
            simp [IsDomain, hne]
          · intro j
            by_cases hj : j = domainIndex object_id
            · refine Or.inr ⟨t, object_id, rfl, hh, hj, ?_⟩
              rw [hj]
              exact (set_none_slots _ _ hlt).1
            · exact Or.inl ((set_none_slots _ _ hlt).2 j hj)
          · intro j hj
            by_cases hjk : j = domainIndex object_id
            · rw [hjk]
              exact (set_none_slots _ _ hlt).1
            · exact ((set_none_slots _ _ hlt).2 j hjk).trans hj
        · cases hok

/-- The dispatch that closes object 3 of an endpoint with three slots. -/
theorem HandleSyncRequest_domain_stable_witness :
    IsDomain threeSlots = true ∧
      HandleSyncRequest domainEnv threeSlots (some (threadCloseOf 3)) =
        .ok ⟨RESULT_SUCCESS,
             { threeSlots with domain_request_handlers := [some 7, none, none] },
             [.response 2 [RESULT_SUCCESS]]⟩ ∧
      IsDomain { threeSlots with domain_request_handlers := [some 7, none, none] } = true ∧
      [some 7, none, (none : SharedPtr Handler)].length =
        threeSlots.domain_request_handlers.length ∧
      (∀ j : Nat, [some 7, none, (none : SharedPtr Handler)][j]? =
          threeSlots.domain_request_handlers[j]? ∨
        ∃ t k, some (threadCloseOf 3) = some t ∧
          (requestContext domainEnv threeSlots t).domain_message_header =
            some ⟨.CloseVirtualHandle, k⟩ ∧
          j = domainIndex k ∧ [some 7, none, (none : SharedPtr Handler)][j]? = some none) ∧
      (∀ j : Nat, threeSlots.domain_request_handlers[j]? = some none →
        [some 7, none, (none : SharedPtr Handler)][j]? = some none) :=
  ⟨rfl, rfl,
    HandleSyncRequest_domain_stable domainEnv threeSlots (some (threadCloseOf 3))
      ⟨RESULT_SUCCESS, { threeSlots with domain_request_handlers := [some 7, none, none] },
       [.response 2 [RESULT_SUCCESS]]⟩ rfl rfl⟩

/-! ## Claiming and the request in flight -/

/-- C17, amended: with the client endpoint present, whenever `Acquire` returns,
the current slot was empty before the call, so the claim overwrites no request
in flight. -/
theorem Acquire_current_was_empty (self next : ServerSession) (thread : SharedPtr Thread)
    (link : Session) (c : Nat) (hparent : self.parent = some link)
    (hclient : link.client = some c) (hok : Acquire self thread = .ok next) :
    self.currently_handling = none := by
  have hwait := ShouldWait_of_client self thread link c hparent hclient
  cases hc : self.currently_handling with
  | none => rfl
  | some running =>
    have hbusy : ShouldWait self thread = .ok true := by
      rw [hwait, hc]
      simp
    simp [Acquire, hbusy] at hok

/-- The claim on an endpoint with two pending requesters found the current slot
empty. -/
theorem Acquire_current_was_empty_witness :
    Acquire twoPending none =
        .ok { twoPending with
                currently_handling := some threadB
                pending_requesting_threads := [some threadA] } ∧
      twoPending.currently_handling = none :=
  ⟨rfl,
    Acquire_current_was_empty twoPending
      { twoPending with
          currently_handling := some threadB
          pending_requesting_threads := [some threadA] }
      none openLink 200 rfl rfl rfl⟩

/-- C17 fails as stated.  On an endpoint whose client is gone, with two pending
requesters and the request of thread A in flight, `Acquire` returns and
replaces thread A in the current slot by thread B. -/
theorem Acquire_overwrites_when_closed :
    busyClosed.currently_handling = some threadA ∧
      Acquire busyClosed none =
        .ok { busyClosed with
                currently_handling := some threadB
                pending_requesting_threads := [some threadA] } :=
  ⟨rfl, rfl⟩

/-! ## Dispatch followed by a claim -/

/-- C18, amended: on an endpoint with no handler attached, the client present and
the current slot empty, unless the convert-to-domain flag is set while the
endpoint is already a domain, a dispatch of thread `T` on the regular path
returns, `ShouldWait` is false afterwards, and a following `Acquire` returns
with `T` in the current slot and the pending requesters as they were before
the dispatch. -/
theorem HandleSyncRequest_then_Acquire (env : Env) (self : ServerSession) (T : Thread)
    (thread : SharedPtr Thread) (link : Session) (c : Nat)
    (hhandler : self.hle_handler = none)
    (hparent : self.parent = some link) (hclient : link.client = some c)
    (hcurrent : self.currently_handling = none)
    (hpath : IsDomain self = false ∨
      (requestContext env self T).domain_message_header = none)
    (hpromotion : ¬ (self.convert_to_domain = true ∧ IsDomain self = true)) :
    ∃ done, HandleSyncRequest env self (some T) = .ok done ∧
      ShouldWait done.session thread = .ok false ∧
      ∃ next, Acquire done.session thread = .ok next ∧
        next.currently_handling = some T ∧
        next.pending_requesting_threads = self.pending_requesting_threads := by
  rw [HandleSyncRequest_regular env self T hpath]
  have hfinish : ∃ done,
      regularRequest env self T (requestContext env self T) = .ok done ∧
      done.session.parent = self.parent ∧
      done.session.currently_handling = self.currently_handling ∧
      done.session.pending_requesting_threads = self.pending_requesting_threads ++ [some T] := by
    simp only [regularRequest, hhandler, finishRequest]
    cases hc : self.convert_to_domain with
    | false => exact ⟨_, rfl, rfl, rfl, rfl⟩
    | true =>
      have hempty : self.domain_request_handlers.isEmpty = true := by
        cases he : self.domain_request_handlers.isEmpty with
        | true => rfl
        | false => exact absurd ⟨hc, by simp [IsDomain, he]⟩ hpromotion
      simp only [hempty, if_true]
      exact ⟨_, rfl, rfl, rfl, rfl⟩
  obtain ⟨done, hdone, hpar, hcur, hpend⟩ := hfinish
  have hwait : ShouldWait done.session thread = .ok false := by
    rw [ShouldWait_of_client done.session thread link c (hpar.trans hparent) hclient, hpend,
      hcur, hcurrent]
    simp
  refine ⟨done, hdone, hwait, ?_⟩
  have hacq := Acquire_of_ready done.session thread self.pending_requesting_threads
    (some T) hwait hpend
  exact ⟨_, hacq, rfl, rfl⟩

/-- A dispatch and a claim on an endpoint without handler that has two pending
requesters and nothing in flight. -/
theorem HandleSyncRequest_then_Acquire_witness :
    ∃ done, HandleSyncRequest demoEnv twoPending (some threadPlain) = .ok done ∧
      ShouldWait done.session none = .ok false ∧
      ∃ next, Acquire done.session none = .ok next ∧
        next.currently_handling = some threadPlain ∧
        next.pending_requesting_threads = twoPending.pending_requesting_threads :=
  HandleSyncRequest_then_Acquire demoEnv twoPending threadPlain none openLink 200 rfl rfl rfl
    rfl (Or.inl rfl) (by decide)

/-- C18 fails as stated.  The endpoint has no handler attached, its client is
present and its current slot is empty; it is a domain with the
convert-to-domain flag set, and the request has no domain sub-header.  The
dispatch does not return, so no `Acquire` follows it. -/
theorem HandleSyncRequest_then_Acquire_stale_flag :
    orphaned.hle_handler = none ∧
      orphaned.parent = some openLink ∧ openLink.client = some 200 ∧
      orphaned.currently_handling = none ∧
      (requestContext demoEnv orphaned threadPlain).domain_message_header = none ∧
      ¬ ∃ done, HandleSyncRequest demoEnv orphaned (some threadPlain) = .ok done := by
  refine ⟨rfl, rfl, rfl, rfl, rfl, ?_⟩
  rintro ⟨done, h⟩
  have hfault : HandleSyncRequest demoEnv orphaned (some threadPlain) =
      .error ⟨.assertion "already a domain",
              { orphaned with pending_requesting_threads := [some threadPlain] },
              [.wakeup]⟩ := rfl
  rw [hfault] at h
  cases h

/-! ## Construction and destruction: theorems -/

theorem decrementU32_pred (n : Nat) (hpos : 1 ≤ n) (hword : n < 4294967296) :
    decrementU32 n = n - 1 := by
  unfold decrementU32
  omega

/-- C13: destroying a server endpoint whose session link refers to a port
decrements the 32-bit active-session count of that port by one (a count
`n ≥ 1` becomes `n - 1`), clears the server reference of the link and leaves its
client reference and its port in place; when the link has no port, only the
server reference is cleared. -/
theorem destroyServerSession_effect (self : ServerSession) (link : Session)
    (hparent : self.parent = some link) :
    (∀ p, link.port = some p →
        destroyServerSession self =
          .ok ⟨link.client, none, some ⟨decrementU32 p.active_sessions⟩⟩ ∧
        (1 ≤ p.active_sessions → p.active_sessions < 4294967296 →
          destroyServerSession self =
            .ok ⟨link.client, none, some ⟨p.active_sessions - 1⟩⟩)) ∧
      (link.port = none → destroyServerSession self = .ok ⟨link.client, none, none⟩) := by
  refine ⟨?_, ?_⟩
  · intro p hport
    have h : destroyServerSession self =
        .ok ⟨link.client, none, some ⟨decrementU32 p.active_sessions⟩⟩ := by
      simp [destroyServerSession, hparent, hport]
    refine ⟨h, ?_⟩
    intro hpos hword
    rw [h, decrementU32_pred _ hpos hword]
  · intro hport
    simp [destroyServerSession, hparent, hport]

/-- The destruction of an endpoint connected through a port with three active
sessions leaves two. -/
theorem destroyServerSession_effect_witness :
    viaPort.parent = some portLink ∧ portLink.port = some ⟨3⟩ ∧
      destroyServerSession viaPort = .ok ⟨some 200, none, some ⟨2⟩⟩ ∧
      destroyServerSession served = .ok ⟨some 200, none, none⟩ :=
  ⟨rfl, rfl,
    ((destroyServerSession_effect viaPort portLink rfl).1 ⟨3⟩ rfl).2 (by decide) (by decide),
    (destroyServerSession_effect served openLink rfl).2 rfl⟩

/-- C15: for every name and port, `CreateSessionPair` returns a server endpoint
named `name ++ "_Server"` and a client endpoint named `name ++ "_Client"` whose
parents are one and the same session link; the server reference of the link is
the address of the new server endpoint, its client reference the address of
the new client endpoint, and its port is the port given, with the count it
had.  The new server endpoint has no handler, nothing pending, nothing in
flight and no domain table. -/
theorem CreateSessionPair_wired (name : String) (port : SharedPtr ClientPort)
    (server_address client_address : Nat) :
    ∃ pair link,
      CreateSessionPair name port server_address client_address = .ok pair ∧
      pair.server_session.name = name ++ "_Server" ∧
      pair.client_session.name = name ++ "_Client" ∧
      pair.server_session.parent = some link ∧
      pair.client_session.parent = some link ∧
      link.server = some server_address ∧
      link.client = some client_address ∧
      link.port = port ∧
      pair.server_session.hle_handler = none ∧
      pair.server_session.pending_requesting_threads = [] ∧
      pair.server_session.currently_handling = none ∧
      IsDomain pair.server_session = false :=
  ⟨_, _, rfl, rfl, rfl, rfl, rfl, rfl, rfl, rfl, rfl, rfl, rfl, rfl⟩

end Kernel

namespace RendererOpenGL

/-! ## Lemmas on the index arithmetic -/

theorem int32_of_range (z : Int) (hlo : 0 ≤ z) (hhi : z < 2147483648) : int32 z = z := by
  unfold int32
  omega

theorem pixel_bounds (W H x y : Nat) (hx : x < W) (hy : y < H) :
    H * x + H ≤ W * H ∧ W * y + W ≤ W * H := by
  have h1 : H * (x + 1) ≤ H * W := Nat.mul_le_mul_left H hx
  have h2 : W * (y + 1) ≤ W * H := Nat.mul_le_mul_left W hy
  rw [Nat.mul_succ] at h1 h2
  rw [Nat.mul_comm H W] at h1
  exact ⟨h1, h2⟩

theorem in_coord_eq (W H x y : Nat) (hx : x < W) (hy : y < H)
    (hfit : 3 * (W * H) < 2147483648) :
    in_coord H x y = ((3 * (H * x + (H - 1 - y)) : Nat) : Int) := by
  obtain ⟨h1, _⟩ := pixel_bounds W H x y hx hy
  have hprod : ((H : Int) * 3 * x) = 3 * ((H * x : Nat) : Int) := by
    push_cast
    ring
  unfold in_coord
  rw [hprod, int32_of_range] <;> omega

theorem out_coord_eq (W H x y : Nat) (hx : x < W) (hy : y < H)
    (hfit : 3 * (W * H) < 2147483648) :
    out_coord W x y = ((3 * (W * y + x) : Nat) : Int) := by
  obtain ⟨_, h2⟩ := pixel_bounds W H x y hx hy
  have hprod : ((W : Int) * y * 3) = 3 * ((W * y : Nat) : Int) := by
    push_cast
    ring
  unfold out_coord
  rw [hprod, int32_of_range] <;> omega

theorem flipPixel_eq (W H : Nat) (input : Int → Nat) (x y : Nat) (s : FlipState)
    (hx : x < W) (hy : y < H) (hfit : 3 * (W * H) < 2147483648) :
    flipPixel W H input y x s =
      copyByte input ((3 * (W * y + x) + 2 : Nat) : Int)
          ((3 * (H * x + (H - 1 - y)) + 2 : Nat) : Int)
        (copyByte input ((3 * (W * y + x) + 1 : Nat) : Int)
            ((3 * (H * x + (H - 1 - y)) + 1 : Nat) : Int)
          (copyByte input ((3 * (W * y + x) + 0 : Nat) : Int)
              ((3 * (H * x + (H - 1 - y)) + 0 : Nat) : Int) s)) := by
  obtain ⟨h1, h2⟩ := pixel_bounds W H x y hx hy
  unfold flipPixel
  simp only [in_coord_eq W H x y hx hy hfit, out_coord_eq W H x y hx hy hfit]
  have e : ∀ (n c : Nat), n + c < 2147483648 →
      int32 (((n : Nat) : Int) + (c : Int)) = ((n + c : Nat) : Int) := by
    intro n c h
    rw [int32_of_range] <;> omega
  have o0 := e (3 * (W * y + x)) 0 (by omega)
  have o1 := e (3 * (W * y + x)) 1 (by omega)
  have o2 := e (3 * (W * y + x)) 2 (by omega)
  have i0 := e (3 * (H * x + (H - 1 - y))) 0 (by omega)
  have i1 := e (3 * (H * x + (H - 1 - y))) 1 (by omega)
  have i2 := e (3 * (H * x + (H - 1 - y))) 2 (by omega)
  simp only [Nat.cast_zero, Nat.cast_one, Nat.cast_ofNat] at o0 o1 o2 i0 i1 i2
  rw [o0, o1, o2, i0, i1, i2]

theorem rowmajor_unique (W x y x' y' : Nat) (hx : x < W) (hx' : x' < W)
    (h : W * y' + x' = W * y + x) : x' = x ∧ y' = y := by
  have hW : 0 < W := by omega
  have hmod := congrArg (fun n => n % W) h
  have hdiv := congrArg (fun n => n / W) h
  simp only [Nat.mul_add_mod, Nat.mod_eq_of_lt hx, Nat.mod_eq_of_lt hx'] at hmod
  simp only [Nat.mul_add_div hW, Nat.div_eq_of_lt hx, Nat.div_eq_of_lt hx', Nat.add_zero]
    at hdiv
  exact ⟨hmod, hdiv⟩

/-! ## The loop invariant -/

theorem flipPixel_invariant (W H : Nat) (input : Int → Nat) (x y : Nat) (s : FlipState)
    (hx : x < W) (hy : y < H) (hfit : 3 * (W * H) < 2147483648)
    (hinv : FlipInvariant W H input (W * y + x) s) :
    FlipInvariant W H input (W * y + x + 1) (flipPixel W H input y x s) := by
  obtain ⟨hwrites, hreads, hout⟩ := hinv
  obtain ⟨h1, h2⟩ := pixel_bounds W H x y hx hy
  have hWH : 3 * W * H = 3 * (W * H) := Nat.mul_assoc 3 W H
  rw [flipPixel_eq W H input x y s hx hy hfit]
  refine ⟨?_, ?_, ?_⟩
  · simp only [copyByte, hwrites]
    have hr : 3 * (W * y + x + 1) = 3 * (W * y + x) + 1 + 1 + 1 := by ring
    rw [hr, List.range_succ, List.range_succ, List.range_succ]
    simp [List.map_append]
  · intro i hi
    simp only [copyByte, List.mem_append, List.mem_singleton] at hi
    rcases hi with ((hi | hi) | hi) | hi
    · exact hreads i hi
    · subst hi
      omega
    · subst hi
      omega
    · subst hi
      omega
  · intro x' y' c hx' hy' hc hlt
    simp only [copyByte]
    by_cases hk : W * y' + x' = W * y + x
    · obtain ⟨hxx, hyy⟩ := rowmajor_unique W x y x' y' hx hx' hk
      subst hxx
      subst hyy
      have hc3 : c = 0 ∨ c = 1 ∨ c = 2 := by omega
      rcases hc3 with h | h | h <;> subst h <;> simp
    · have hlt' : W * y' + x' < W * y + x := by omega
      have hold := hout x' y' c hx' hy' hc hlt'
      have n0 : ((3 * (W * y' + x') + c : Nat) : Int) ≠ ((3 * (W * y + x) + 0 : Nat) : Int) := by
        omega
      have n1 : ((3 * (W * y' + x') + c : Nat) : Int) ≠ ((3 * (W * y + x) + 1 : Nat) : Int) := by
        omega
      have n2 : ((3 * (W * y' + x') + c : Nat) : Int) ≠ ((3 * (W * y + x) + 2 : Nat) : Int) := by
        omega
      rw [if_neg n2, if_neg n1, if_neg n0]
      exact hold

theorem rowLoop_invariant (W H : Nat) (input : Int → Nat) (y : Nat) (s : FlipState)
    (hy : y < H) (hfit : 3 * (W * H) < 2147483648)
    (hinv : FlipInvariant W H input (W * y) s) :
    ∀ n, n ≤ W → FlipInvariant W H input (W * y + n) (rowLoop W H input y n s) := by
  intro n
  induction n with
  | zero =>
    intro _
    exact hinv
  | succ n ih =>
    intro hn
    exact flipPixel_invariant W H input n y _ (by omega) hy hfit (ih (by omega))

theorem frameLoop_invariant (W H : Nat) (input : Int → Nat) (s : FlipState)
    (hfit : 3 * (W * H) < 2147483648) (hinv : FlipInvariant W H input 0 s) :
    ∀ m, m ≤ H → FlipInvariant W H input (W * m) (frameLoop W H input m s) := by
  intro m
  induction m with
  | zero =>
    intro _
    exact hinv
  | succ m ih =>
    intro hm
    have hrow := rowLoop_invariant W H input m _ (by omega) hfit (ih (by omega)) W
      (Nat.le_refl W)
    rw [Nat.mul_succ]
    exact hrow

/-! ## The pixel map -/

theorem pixel_lt (W H x y : Nat) (hx : x < W) (hy : y < H) :
    H * x + (H - 1 - y) < W * H ∧ W * y + x < W * H := by
  obtain ⟨h1, h2⟩ := pixel_bounds W H x y hx hy
  exact ⟨by omega, by omega⟩

theorem source_pixel_unique (W H p : Nat) (hp : p < W * H) :
    ∃! q, q < W * H ∧ ∃ x y, x < W ∧ y < H ∧ p = W * y + x ∧ q = H * x + (H - 1 - y) := by
  have hW : 0 < W := by
    rcases Nat.eq_zero_or_pos W with h | h
    · simp [h] at hp
    · exact h
  have hx : p % W < W := Nat.mod_lt p hW
  have hy : p / W < H := Nat.div_lt_of_lt_mul hp
  have hsplit : p = W * (p / W) + p % W := (Nat.div_add_mod p W).symm
  refine ⟨H * (p % W) + (H - 1 - p / W),
    ⟨(pixel_lt W H _ _ hx hy).1, p % W, p / W, hx, hy, hsplit, rfl⟩, ?_⟩
  rintro q ⟨_, x, y, hx', _, hpxy, hq⟩
  obtain ⟨hxx, hyy⟩ := rowmajor_unique W (p % W) (p / W) x y hx hx' (hpxy.symm.trans hsplit)
  rw [hq, hxx, hyy]

theorem target_pixel_unique (W H q : Nat) (hq : q < W * H) :
    ∃! p, p < W * H ∧ ∃ x y, x < W ∧ y < H ∧ p = W * y + x ∧ q = H * x + (H - 1 - y) := by
  have hH : 0 < H := by
    rcases Nat.eq_zero_or_pos H with h | h
    · simp [h] at hq
    · exact h
  have hr : q % H < H := Nat.mod_lt q hH
  have hx : q / H < W := Nat.div_lt_of_lt_mul (by rw [Nat.mul_comm]; exact hq)
  have hy : H - 1 - q % H < H := by omega
  have hsplit : q = H * (q / H) + q % H := (Nat.div_add_mod q H).symm
  have hback : H - 1 - (H - 1 - q % H) = q % H := by omega
  refine ⟨W * (H - 1 - q % H) + q / H,
    ⟨(pixel_lt W H _ _ hx hy).2, q / H, H - 1 - q % H, hx, hy, rfl, by
      rw [hback]
      exact hsplit⟩, ?_⟩
  rintro p ⟨_, x, y, _, hy', hp, hqxy⟩
  have hr' : H - 1 - y < H := by omega
  obtain ⟨hrr, hxx⟩ := rowmajor_unique H (q % H) (q / H) (H - 1 - y) x hr hr'
    (hqxy.symm.trans hsplit)
  have hyy : y = H - 1 - q % H := by omega
  rw [hp, hxx, hyy]

/-! ## FlipFramebuffer: theorem -/

/-- C19: for a screen of width `W` and height `H` whose `3 * W * H` bytes are
indexed by an `int`, `FlipFramebuffer` sets `out[3 * (W * y + x) + c]` to
`in[3 * (H * x + (H - 1 - y)) + c]` for every `x < W`, `y < H` and `c < 3`, these
being the indices `out_coord + c` and `in_coord + c` of the source.  The
indices written are `0, 1, ..., 3 * W * H - 1`, each one exactly once, every
index read is in `[0, 3 * W * H)`, and the relation between the output pixel
`W * y + x` and the input pixel `H * x + (H - 1 - y)` is a bijection of
`[0, W * H)`: every output pixel has exactly one source pixel and every input
pixel is the source of exactly one output pixel. -/
theorem FlipFramebuffer_permutes (W H : Nat) (memory : Nat → Int → Nat) (addr : Nat)
    (out : Int → Nat) (hfit : 3 * W * H < 2147483648) :
    (∀ x y c : Nat, x < W → y < H → c < 3 →
        (FlipFramebuffer W H memory addr out).out ((3 * (W * y + x) + c : Nat) : Int) =
          memory addr ((3 * (H * x + (H - 1 - y)) + c : Nat) : Int)) ∧
      (∀ x y : Nat, x < W → y < H →
        out_coord W x y = ((3 * (W * y + x) : Nat) : Int) ∧
        in_coord H x y = ((3 * (H * x + (H - 1 - y)) : Nat) : Int)) ∧
      (FlipFramebuffer W H memory addr out).writes =
        (List.range (3 * W * H)).map Int.ofNat ∧
      (∀ i : Int, 0 ≤ i → i < ((3 * W * H : Nat) : Int) →
        (FlipFramebuffer W H memory addr out).writes.count i = 1) ∧
      (∀ i ∈ (FlipFramebuffer W H memory addr out).reads,
        0 ≤ i ∧ i < ((3 * W * H : Nat) : Int)) ∧
      (∀ p, p < W * H →
        ∃! q, q < W * H ∧
          ∃ x y, x < W ∧ y < H ∧ p = W * y + x ∧ q = H * x + (H - 1 - y)) ∧
      (∀ q, q < W * H →
        ∃! p, p < W * H ∧
          ∃ x y, x < W ∧ y < H ∧ p = W * y + x ∧ q = H * x + (H - 1 - y)) := by
  have hfit' : 3 * (W * H) < 2147483648 := by
    rw [← Nat.mul_assoc]
    exact hfit
  have hinit : FlipInvariant W H (memory addr) 0 ⟨out, [], []⟩ := by
    refine ⟨rfl, ?_, ?_⟩
    · intro i hi
      cases hi
    · intro x y c _ _ _ h
      omega
  obtain ⟨hwrites, hreads, hout⟩ :=
    frameLoop_invariant W H (memory addr) ⟨out, [], []⟩ hfit' hinit H (Nat.le_refl H)
  have hwrites' : (FlipFramebuffer W H memory addr out).writes =
      (List.range (3 * W * H)).map Int.ofNat := by
    rw [Nat.mul_assoc]
    exact hwrites
  refine ⟨?_, ?_, hwrites', ?_, hreads, source_pixel_unique W H, target_pixel_unique W H⟩
  · intro x y c hx hy hc
    obtain ⟨_, h2⟩ := pixel_bounds W H x y hx hy
    exact hout x y c hx hy hc (by omega)
  · intro x y hx hy
    exact ⟨out_coord_eq W H x y hx hy hfit', in_coord_eq W H x y hx hy hfit'⟩
  · intro i hlo hhi
    rw [hwrites']
    apply List.count_eq_one_of_mem
    · exact (List.nodup_range _).map (fun a b h => Int.ofNat.inj h)
    · exact List.mem_map.mpr ⟨i.toNat, List.mem_range.mpr (by omega), by
        show Int.ofNat i.toNat = i
        simp [Int.toNat_of_nonneg hlo]⟩

/-- The flip of an image of width 2 and height 3: the byte at output index 9,
which is pixel `x = 1`, `y = 1`, channel 0, is the byte at input index 12. -/
theorem FlipFramebuffer_permutes_witness :
    (FlipFramebuffer 2 3 rampMemory 0 blank).out ((3 * (2 * 1 + 1) + 0 : Nat) : Int) =
        rampMemory 0 ((3 * (3 * 1 + (3 - 1 - 1)) + 0 : Nat) : Int) ∧
      (FlipFramebuffer 2 3 rampMemory 0 blank).out 9 = 12 ∧
      (FlipFramebuffer 2 3 rampMemory 0 blank).writes =
        (List.range (3 * 2 * 3)).map Int.ofNat :=
  ⟨(FlipFramebuffer_permutes 2 3 rampMemory 0 blank (by decide)).1 1 1 0 (by decide)
      (by decide) (by decide),
    by decide,
    (FlipFramebuffer_permutes 2 3 rampMemory 0 blank (by decide)).2.2.1⟩

end RendererOpenGL
